import Mathlib

set_option maxRecDepth 40000

/-!
Verification of the core algorithms of the rs-react-native-map-clustering
repository: geometry utilities (bounding box, zoom), the feature adapter,
the spiral (spider) layout engine with its trigonometric cache, the style
lookup table, the orchestration state machine for spiral mode, and the
batched marker-loading pipeline with cancellation.

Numbers are modelled by `ℚ` (JavaScript floating point idealised as exact
rationals), point counts by `ℕ`, zoom levels by `ℤ`.  The external
collaborators (`@mapbox/geo-viewport`'s `viewport`, `Math.sin`, `Math.cos`,
the supercluster index, and the device window dimensions) are passed as
explicit function parameters.
-/

/-! ## JavaScript value model

Marker props are a JavaScript object: an insertion-ordered key/value list in
which a later binding for a key overrides an earlier one (object-spread
semantics).  `getProp` therefore looks the key up from the right. -/

structure LatLng where
  latitude : ℚ
  longitude : ℚ
  deriving DecidableEq, Repr

inductive JsVal where
  | jsUndefined : JsVal
  | boolean : Bool → JsVal
  | num : ℚ → JsVal
  | coord : LatLng → JsVal
  | node : ℕ → JsVal
  | other : ℕ → JsVal
  deriving DecidableEq, Repr

def coordinateKey : String := "coordinate"
def childrenKey : String := "children"
def pointCountKey : String := "point_count"
def indexKey : String := "index"
def clusterKey : String := "cluster"
def longitudeKey : String := "longitude"
def latitudeKey : String := "latitude"
def featureTypeStr : String := "Feature"
def pointTypeStr : String := "Point"

/-- Lookup of a key in a props object; the rightmost binding wins, matching
JavaScript object-spread override semantics. -/
def getProp (entries : List (String × JsVal)) (k : String) : Option JsVal :=
  (entries.reverse.find? (fun e => e.1 == k)).map (fun e => e.2)

/-- JavaScript truthiness of a modelled value. -/
def truthy : JsVal → Bool
  | .jsUndefined => false
  | .boolean b => b
  | .num q => q != 0
  | .coord _ => true
  | .node _ => true
  | .other _ => true

/-- Property access `v[k]` on a modelled value: coordinate objects expose
`longitude` and `latitude`, everything else yields `undefined`. -/
def jsField (v : JsVal) (k : String) : JsVal :=
  match v with
  | .coord c =>
      if k == longitudeKey then .num c.longitude
      else if k == latitudeKey then .num c.latitude
      else .jsUndefined
  | _ => .jsUndefined

/-! ## React children model (src/src/helpers.ts: isMarkerElement) -/

/-- A React child: an element carrying a props object, or any non-element
node. -/
inductive RNode where
  | element : List (String × JsVal) → RNode
  | other : ℕ → RNode
  deriving DecidableEq, Repr

/-- Translation of `isMarkerElement`: the child is an element whose
`coordinate` prop is truthy and whose `cluster` prop is not literally
`false`. -/
def isMarker (child : RNode) : Bool :=
  match child with
  | .element props =>
      (match getProp props coordinateKey with
       | some v => truthy v
       | none => false) &&
      !(getProp props clusterKey == some (JsVal.boolean false))
  | .other _ => false

/-! ## Feature adapter (src/src/helpers.ts: markerToGeoJSONFeature) -/

structure PointGeometry where
  coordinates : JsVal × JsVal
  type : String
  deriving DecidableEq, Repr

structure GeoJSONFeature where
  type : String
  geometry : PointGeometry
  properties : List (String × JsVal)
  deriving DecidableEq, Repr

/-- Translation of `markerToGeoJSONFeature`: destructures `children` out of
the props, reads `coordinate.longitude` and `coordinate.latitude`, and
builds `{ point_count: 0, index, ...props }` (the spread comes last, so the
caller's own bindings override the two reserved fields).  Reading a field of
a nullish `coordinate` throws in JavaScript, modelled by `none`. -/
def markerToGeoJSONFeature (props : List (String × JsVal)) (n : ℚ) :
    Option GeoJSONFeature :=
  let rest := props.filter (fun e => !(e.1 == childrenKey))
  match getProp props coordinateKey with
  | none => none
  | some JsVal.jsUndefined => none
  | some v =>
      some { type := featureTypeStr
             geometry :=
               { coordinates := (jsField v longitudeKey, jsField v latitudeKey)
                 type := pointTypeStr }
             properties :=
               (pointCountKey, JsVal.num 0) :: (indexKey, JsVal.num n) :: rest }

/-! ## Geometry utilities (src/src/helpers.ts: calculateBBox, returnMapZoom) -/

structure Region where
  latitude : ℚ
  longitude : ℚ
  latitudeDelta : ℚ
  longitudeDelta : ℚ
  deriving DecidableEq, Repr

/-- Translation of `calculateBBox`: the bounding box
`(westLng, southLat, eastLng, northLat)` of a region, correcting a negative
longitude delta by `+360`. -/
def calculateBBox (region : Region) : ℚ × ℚ × ℚ × ℚ :=
  let lngD :=
    if region.longitudeDelta < 0 then region.longitudeDelta + 360
    else region.longitudeDelta
  (region.longitude - lngD,
   region.latitude - region.latitudeDelta,
   region.longitude + lngD,
   region.latitude + region.latitudeDelta)

/-- Translation of `returnMapZoom`.  `gv` stands for the external
`GeoViewport.viewport(bBox, [width, height]).zoom` computation and
`w`, `h` for the device window dimensions. -/
def returnMapZoom (gv : ℚ × ℚ × ℚ × ℚ → ℚ × ℚ → ℤ) (w h : ℚ)
    (region : Region) (bBox : ℚ × ℚ × ℚ × ℚ) (minZoom : ℤ) : ℤ :=
  if 40 ≤ region.longitudeDelta then minZoom else gv bBox (w, h)

/-! ## Style lookup (src/src/helpers.ts: MARKER_STYLES, returnMarkerStyle) -/

structure MarkerStyle where
  width : ℚ
  height : ℚ
  size : ℚ
  fontSize : ℚ
  deriving DecidableEq, Repr

/-- Translation of the exact-key lookup `MARKER_STYLES[points]`. -/
def markerStylesLookup (points : ℕ) : Option MarkerStyle :=
  if points = 4 then some ⟨54, 54, 40, 16⟩
  else if points = 8 then some ⟨60, 60, 46, 17⟩
  else if points = 10 then some ⟨66, 66, 50, 17⟩
  else if points = 15 then some ⟨72, 72, 54, 18⟩
  else if points = 25 then some ⟨78, 78, 58, 19⟩
  else if points = 50 then some ⟨84, 84, 64, 20⟩
  else if points = 100 then some ⟨90, 90, 70, 22⟩
  else none

/-- Translation of `returnMarkerStyle`: exact table hit first, then
greater-than thresholds, else the default style. -/
def returnMarkerStyle (points : ℕ) : MarkerStyle :=
  (markerStylesLookup points).getD
    (if 100 < points then ⟨90, 90, 70, 22⟩
     else if 50 < points then ⟨84, 84, 64, 20⟩
     else if 25 < points then ⟨78, 78, 58, 19⟩
     else if 15 < points then ⟨72, 72, 54, 18⟩
     else if 10 < points then ⟨66, 66, 50, 17⟩
     else if 8 < points then ⟨60, 60, 46, 17⟩
     else if 4 < points then ⟨54, 54, 40, 16⟩
     else ⟨48, 48, 36, 15⟩)

/-! ## Trigonometric cache (src/src/helpers.ts: ANGLE_CACHE, getCachedTrig)

The cache is keyed by `angle.toFixed(2)`; for the nonnegative angles used
here that string is determined by the integer `⌊100 * angle + 1/2⌋`
(JavaScript rounds ties away from zero).  `Math.cos` and `Math.sin` are
abstract parameters `cosF`, `sinF`. -/

def jsKey (q : ℚ) : ℤ := ⌊q * 100 + 1 / 2⌋

/-- Translation of the `ANGLE_CACHE` construction: the loop
`for (i = 0; i < 200; i += 0.25)` stores, for its `k`-th iteration value
`i = k / 4`, the angle `0.25 * (i * 0.5) = k / 32` under its
`toFixed(2)` key together with the angle's cosine and sine. -/
def angleCache (cosF sinF : ℚ → ℚ) : List (ℤ × ℚ × ℚ) :=
  (List.range 800).map
    (fun (k : ℕ) =>
      (jsKey ((k : ℚ) / 32), cosF ((k : ℚ) / 32), sinF ((k : ℚ) / 32)))

/-- Translation of `getCachedTrig`: cache hit by `toFixed(2)` key, else a
direct evaluation. -/
def getCachedTrig (cosF sinF : ℚ → ℚ) (angle : ℚ) : ℚ × ℚ :=
  match (angleCache cosF sinF).find? (fun e => e.1 == jsKey angle) with
  | some e => e.2
  | none => (cosF angle, sinF angle)

/-! ## Spiral layout engine (src/src/helpers.ts: generateSpiral) -/

structure ChildProps where
  index : Option ℚ
  deriving DecidableEq, Repr

/-- A leaf feature as consumed by `generateSpiral`: the properties object
may be absent, and its `index` may be missing or non-numeric (`none`). -/
structure ChildFeature where
  properties : Option ChildProps
  deriving DecidableEq, Repr

/-- The guarded read of `child.properties.index` with its
`typeof child.properties.index` number check: `some` exactly when the child
has a properties object carrying a numeric index. -/
def childIndexValue (c : ChildFeature) : Option ℚ :=
  match c.properties with
  | none => none
  | some p => p.index

structure FeatureProps where
  point_count : ℕ
  cluster : Bool
  cluster_id : Option ℤ
  index : Option ℚ
  deriving DecidableEq, Repr

structure Geometry where
  coordinates : ℚ × ℚ
  deriving DecidableEq, Repr

/-- A feature of the spatial index; `coordinates` is
`(longitude, latitude)`. -/
structure GeoFeature where
  properties : FeatureProps
  geometry : Geometry
  deriving DecidableEq, Repr

structure SpiderMarker where
  index : ℚ
  longitude : ℚ
  latitude : ℚ
  centerPoint : LatLng
  deriving DecidableEq, Repr

/-- Translation of `generateSpiral`.  The start-offset loop
`for (i = 0; i < index; i++) start += markers[i].point_count || 0` is the
sum of the first `index` point counts (JavaScript would throw when `index`
exceeds the array length; callers always pass an in-range index). -/
def generateSpiral (cosF sinF : ℚ → ℚ) (marker : GeoFeature)
    (clusterChildren : List ChildFeature) (markers : List GeoFeature)
    (index : ℕ) : List SpiderMarker :=
  let count := marker.properties.point_count
  let centerLng := marker.geometry.coordinates.1
  let centerLat := marker.geometry.coordinates.2
  let centerPoint : LatLng := ⟨centerLat, centerLng⟩
  if 500 < count then
    let sampleStep := count / 75
    let spiralDensity : ℚ := 0.0006
    (List.range 75).filterMap (fun i =>
      match (clusterChildren.get? (i * sampleStep)).bind childIndexValue with
      | none => none
      | some ci =>
          let angle : ℚ := 0.25 * ((i : ℚ) * 0.5)
          let trig := getCachedTrig cosF sinF angle
          some ⟨ci, centerLng + spiralDensity * angle * trig.2,
                centerLat + spiralDensity * angle * trig.1, centerPoint⟩)
  else
    let maxSpiderPoints :=
      if 200 < count then 75 else if 100 < count then 50 else count
    let start :=
      if 0 < index then
        ((markers.take index).map (fun m => m.properties.point_count)).sum
      else 0
    let spiralDensity : ℚ :=
      if 100 < count then 0.0004 else if 50 < count then 0.0003 else 0.00025
    let step := if maxSpiderPoints < count then count / maxSpiderPoints else 1
    (List.range (min count maxSpiderPoints)).filterMap (fun i =>
      let actualIndex := i * step
      let angle : ℚ := 0.25 * ((actualIndex : ℚ) * 0.5)
      let trig := getCachedTrig cosF sinF angle
      match (clusterChildren.get? (actualIndex + start)).bind childIndexValue with
      | none => none
      | some ci =>
          some ⟨ci, centerLng + spiralDensity * angle * trig.2,
                centerLat + spiralDensity * angle * trig.1, centerPoint⟩)

/-- The number of loop iterations `generateSpiral` performs (75 on the
large-cluster path, `Math.min(count, maxSpiderPoints)` otherwise). -/
def spiralPositions (marker : GeoFeature) : ℕ :=
  let count := marker.properties.point_count
  if 500 < count then 75
  else min count (if 200 < count then 75 else if 100 < count then 50 else count)

/-- The sampled-leaf lookup `generateSpiral` performs at loop iteration
`i`: the numeric `index` property of the sampled child, if present. -/
def spiralLookup (marker : GeoFeature) (clusterChildren : List ChildFeature)
    (markers : List GeoFeature) (index : ℕ) (i : ℕ) : Option ℚ :=
  let count := marker.properties.point_count
  if 500 < count then
    (clusterChildren.get? (i * (count / 75))).bind childIndexValue
  else
    let maxSpiderPoints :=
      if 200 < count then 75 else if 100 < count then 50 else count
    let start :=
      if 0 < index then
        ((markers.take index).map (fun m => m.properties.point_count)).sum
      else 0
    let step := if maxSpiderPoints < count then count / maxSpiderPoints else 1
    (clusterChildren.get? (i * step + start)).bind childIndexValue

/-- The sampling step `generateSpiral` uses (`Math.floor(count / 75)` on the
large-cluster path; `count > maxSpiderPoints ? Math.floor(count /
maxSpiderPoints) : 1` otherwise). -/
def spiralStep (marker : GeoFeature) : ℕ :=
  let count := marker.properties.point_count
  if 500 < count then count / 75
  else
    let maxSpiderPoints :=
      if 200 < count then 75 else if 100 < count then 50 else count
    if maxSpiderPoints < count then count / maxSpiderPoints else 1

/-- The spiral density constant `generateSpiral` uses (`0.0006` on the
large-cluster path, the adaptive tiers otherwise). -/
def spiralDensity (marker : GeoFeature) : ℚ :=
  let count := marker.properties.point_count
  if 500 < count then 0.0006
  else if 100 < count then 0.0004
  else if 50 < count then 0.0003
  else 0.00025

/-! ## Orchestration state machine (src/src/clustered-map-view.tsx) -/

/-- The operations of the loaded supercluster index used on the settle path
(an external collaborator). -/
structure SCHandle where
  getClusters : ℚ × ℚ × ℚ × ℚ → ℤ → List GeoFeature
  getLeaves : ℤ → List ChildFeature

/-- The component state touched by a viewport-settle event. -/
structure MapState where
  markers : List GeoFeature
  spiderMarkers : List SpiderMarker
  isSpiderfier : Bool
  clusterChildren : Option (List ChildFeature)
  superCluster : Option SCHandle
  region : Region

/-- Truthiness of `marker.properties.cluster_id` (`0` and `undefined` are
falsy in the `!marker.properties.cluster_id` guard). -/
def clusterIdTruthy : Option ℤ → Bool
  | none => false
  | some c => c != 0

/-- Translation of `handleRegionChangeComplete`: with no loaded index the
handler only fires a callback and leaves the state unchanged; otherwise it
recomputes bbox, zoom and the visible features, decides spider mode
(`zoom >= 18 && clusteredMarkers.length > 0 && clusterChildren`, the last
conjunct being non-null-ness of the cluster-press state, with the update
applied only when `spiralEnabled`), and stores the features and region. -/
def handleRegionChangeComplete (gv : ℚ × ℚ × ℚ × ℚ → ℚ × ℚ → ℤ) (w h : ℚ)
    (spiralEnabled : Bool) (minZoom : ℤ) (st : MapState) (region : Region) :
    MapState :=
  match st.superCluster with
  | none => st
  | some sc =>
      let bBox := calculateBBox region
      let zoom := returnMapZoom gv w h region bBox minZoom
      let clusteredMarkers := sc.getClusters bBox zoom
      let isSp :=
        if 18 ≤ zoom ∧ clusteredMarkers ≠ [] ∧ st.clusterChildren ≠ none then
          if spiralEnabled then true else st.isSpiderfier
        else
          if spiralEnabled then false else st.isSpiderfier
      { st with markers := clusteredMarkers, region := region,
                isSpiderfier := isSp }

/-- Translation of the spider-marker generation loop body: skip features
that are not clusters or lack a truthy cluster id, deduplicate by cluster
id, expand the rest through `getLeaves` and `generateSpiral`. -/
def spiderAccum (cosF sinF : ℚ → ℚ) (sc : Option SCHandle)
    (markers : List GeoFeature) :
    List (ℕ × GeoFeature) → List ℤ → List SpiderMarker
  | [], _ => []
  | (i, m) :: rest, seen =>
      if !m.properties.cluster || !clusterIdTruthy m.properties.cluster_id then
        spiderAccum cosF sinF sc markers rest seen
      else
        match m.properties.cluster_id with
        | none => spiderAccum cosF sinF sc markers rest seen
        | some cid =>
            if cid ∈ seen then spiderAccum cosF sinF sc markers rest seen
            else
              (generateSpiral cosF sinF m
                 (match sc with
                  | some handle => handle.getLeaves cid
                  | none => []) markers i) ++
                spiderAccum cosF sinF sc markers rest (cid :: seen)

/-- Translation of `generateSpiderMarkers`: at most the first 100 visible
features are processed, with the forEach index and the full feature list
passed to `generateSpiral`. -/
def generateAllSpiderMarkers (cosF sinF : ℚ → ℚ) (st : MapState) :
    List SpiderMarker :=
  let markersToProcess :=
    if 100 < st.markers.length then st.markers.take 100 else st.markers
  spiderAccum cosF sinF st.superCluster st.markers markersToProcess.enum []

/-- Translation of the spider-marker effect: disabled spiral mode leaves the
state alone; not being in spider mode (or having no visible features)
clears the spiral positions; otherwise they are regenerated. -/
def spiderEffect (cosF sinF : ℚ → ℚ) (spiralEnabled : Bool) (st : MapState) :
    MapState :=
  if !spiralEnabled then st
  else if !st.isSpiderfier || st.markers.isEmpty then
    { st with spiderMarkers := [] }
  else { st with spiderMarkers := generateAllSpiderMarkers cosF sinF st }

/-- One viewport-settle step: the region handler followed by the spider
effect it triggers. -/
def settleRegion (gv : ℚ × ℚ × ℚ × ℚ → ℚ × ℚ → ℤ) (w h : ℚ)
    (cosF sinF : ℚ → ℚ) (spiralEnabled : Bool) (minZoom : ℤ)
    (st : MapState) (region : Region) : MapState :=
  spiderEffect cosF sinF spiralEnabled
    (handleRegionChangeComplete gv w h spiralEnabled minZoom st region)

/-! ## Batched marker loading (src/src/clustered-map-view.tsx) -/

/-- One loop body of a batch: a marker child becomes a GeoJSON feature keyed
by its global position, anything else is appended to `otherChildren`.
(`isMarker` guarantees a truthy `coordinate`, so the conversion cannot
throw; the `none` and non-element branches are unreachable.) -/
def processChild (acc : List GeoJSONFeature × List RNode) (child : RNode)
    (i : ℕ) : List GeoJSONFeature × List RNode :=
  if isMarker child then
    match child with
    | .element props =>
        match markerToGeoJSONFeature props (i : ℚ) with
        | some f => (acc.1 ++ [f], acc.2)
        | none => acc
    | .other _ => acc
  else (acc.1, acc.2 ++ [child])

/-- Processing of the half-open global index range `[a, b)` of children, as
performed by one or more batch loops. -/
def processSlice (items : List RNode) (a b : ℕ)
    (acc : List GeoJSONFeature × List RNode) :
    List GeoJSONFeature × List RNode :=
  ((items.enum.drop a).take (b - a)).foldl
    (fun acc e => processChild acc e.2 e.1) acc

/-- The number of `processNextBatch` invocations a batch run over `total`
children makes when started at `processed` (batch size 500). -/
def numTicks (total processed : ℕ) : ℕ :=
  if min (processed + 500) total < total then
    1 + numTicks total (min (processed + 500) total)
  else 1
termination_by total - processed
decreasing_by omega

/-- Translation of the batched load: the `k`-th scheduled
`processNextBatch` invocation observes `flags k` as the value of the
`cancelled` flag (the flag is read when the invocation starts and again
before the final `createCluster`; both reads happen inside the same
event-loop task, hence see the same value, and the flag can only flip
between tasks).  Returns the committed `(rawData, otherChildren)` when
`createCluster` runs, `none` when the run is abandoned. -/
def processRun (items : List RNode) (flags : ℕ → Bool) (k processed : ℕ)
    (acc : List GeoJSONFeature × List RNode) :
    Option (List GeoJSONFeature × List RNode) :=
  if flags k then none
  else
    let nextAcc := processSlice items processed (min (processed + 500) items.length) acc
    if min (processed + 500) items.length < items.length then
      processRun items flags (k + 1) (min (processed + 500) items.length) nextAcc
    else if flags k then none
    else some nextAcc
termination_by items.length - processed
decreasing_by omega

/-- Translation of the load effect's dispatch: at most 1000 children are
processed synchronously inside the effect body (committing immediately,
before any cleanup can run); larger sets go through the cancellable batched
run. -/
def loadChildren (items : List RNode) (flags : ℕ → Bool) :
    Option (List GeoJSONFeature × List RNode) :=
  if items.length ≤ 1000 then some (processSlice items 0 items.length ([], []))
  else processRun items flags 0 0 ([], [])

/-! ## Transparency of the trigonometric cache

The cache keys of distinct stored angles are distinct (consecutive stored
angles differ by `1/32`, that is by more than `3` key units), and every
angle `generateSpiral` ever queries is `n / 8` for a natural `n`: below
`200/8` it hits the entry stored for exactly that angle, above it misses
and falls through to a direct evaluation.  Either way the returned pair is
the cosine and sine of the queried angle. -/

lemma jsKey_div32 (k : ℕ) : jsKey ((k : ℚ) / 32) = (25 * (k : ℤ) + 4) / 8 := by
  unfold jsKey
  have h : (k : ℚ) / 32 * 100 + 1 / 2 =
      ((25 * (k : ℤ) + 4 : ℤ) : ℚ) / ((8 : ℕ) : ℚ) := by
    push_cast
    ring
  rw [h, Rat.floor_intCast_div_natCast]
  norm_num

lemma jsKey_div8 (n : ℕ) : jsKey ((n : ℚ) / 8) = (25 * (n : ℤ) + 1) / 2 := by
  unfold jsKey
  have h : (n : ℚ) / 8 * 100 + 1 / 2 =
      ((25 * (n : ℤ) + 1 : ℤ) : ℚ) / ((2 : ℕ) : ℚ) := by
    push_cast
    ring
  rw [h, Rat.floor_intCast_div_natCast]
  norm_num

lemma jsKey_div32_strictMono : StrictMono (fun k : ℕ => jsKey ((k : ℚ) / 32)) := by
  apply strictMono_nat_of_lt_succ
  intro n
  rw [jsKey_div32, jsKey_div32]
  push_cast
  omega

lemma find?_map_range_key {β : Type} (key : ℕ → ℤ) (g : ℕ → β)
    (hk : StrictMono key) :
    ∀ (m j : ℕ), j < m →
      ((List.range m).map (fun k => (key k, g k))).find?
          (fun e => e.1 == key j) = some (key j, g j) := by
  intro m
  induction m with
  | zero => intro j hj; exact absurd hj (Nat.not_lt_zero j)
  | succ m ih =>
      intro j hj
      rw [List.range_succ, List.map_append, List.find?_append]
      rcases Nat.lt_or_ge j m with h | h
      · rw [ih j h]
        rfl
      · have hj2 : j = m := by omega
        subst hj2
        have hnone : ((List.range j).map (fun k => (key k, g k))).find?
            (fun e => e.1 == key j) = none := by
          rw [List.find?_eq_none]
          intro x hx
          simp only [List.mem_map, List.mem_range] at hx
          obtain ⟨k, hklt, rfl⟩ := hx
          simp only [beq_iff_eq]
          exact ne_of_lt (hk hklt)
        rw [hnone]
        simp [List.find?]

lemma angleCache_find_hit (cosF sinF : ℚ → ℚ) (j : ℕ) (hj : j < 800) :
    (angleCache cosF sinF).find? (fun e => e.1 == jsKey ((j : ℚ) / 32)) =
      some (jsKey ((j : ℚ) / 32), cosF ((j : ℚ) / 32), sinF ((j : ℚ) / 32)) :=
  find?_map_range_key (fun k : ℕ => jsKey ((k : ℚ) / 32))
    (fun k : ℕ => (cosF ((k : ℚ) / 32), sinF ((k : ℚ) / 32)))
    jsKey_div32_strictMono 800 j hj

lemma find?_map_range_key_none {β : Type} (key : ℕ → ℤ) (g : ℕ → β) (t : ℤ) :
    ∀ m : ℕ, (∀ k, k < m → key k ≠ t) →
      ((List.range m).map (fun k => (key k, g k))).find?
          (fun e => e.1 == t) = none := by
  intro m
  induction m with
  | zero => intro _; rfl
  | succ m ih =>
      intro h
      rw [List.range_succ, List.map_append, List.find?_append,
        ih (fun k hk => h k (by omega))]
      have hne : ¬(key m == t) = true := by
        simp only [beq_iff_eq]
        exact h m (by omega)
      simp [List.find?, hne]

lemma angleCache_find_miss (cosF sinF : ℚ → ℚ) (n : ℕ) (hn : 200 ≤ n) :
    (angleCache cosF sinF).find? (fun e => e.1 == jsKey ((n : ℚ) / 8)) =
      none := by
  unfold angleCache
  apply find?_map_range_key_none (fun k : ℕ => jsKey ((k : ℚ) / 32))
    (fun k : ℕ => (cosF ((k : ℚ) / 32), sinF ((k : ℚ) / 32)))
  intro k hk
  rw [jsKey_div32, jsKey_div8]
  have hk2 : (k : ℤ) ≤ 799 := by exact_mod_cast Nat.le_of_lt_succ hk
  have hn2 : (200 : ℤ) ≤ (n : ℤ) := by exact_mod_cast hn
  omega

lemma getCachedTrig_div8 (cosF sinF : ℚ → ℚ) (n : ℕ) :
    getCachedTrig cosF sinF ((n : ℚ) / 8) =
      (cosF ((n : ℚ) / 8), sinF ((n : ℚ) / 8)) := by
  unfold getCachedTrig
  rcases Nat.lt_or_ge n 200 with h | h
  · have harg : (n : ℚ) / 8 = ((4 * n : ℕ) : ℚ) / 32 := by
      push_cast
      ring
    rw [harg, angleCache_find_hit cosF sinF (4 * n) (by omega)]
  · rw [angleCache_find_miss cosF sinF n h]

lemma getCachedTrig_sample (cosF sinF : ℚ → ℚ) (n : ℕ) :
    getCachedTrig cosF sinF (0.25 * ((n : ℚ) * 0.5)) =
      (cosF (0.25 * ((n : ℚ) * 0.5)), sinF (0.25 * ((n : ℚ) * 0.5))) := by
  have h : (0.25 : ℚ) * ((n : ℚ) * 0.5) = (n : ℚ) / 8 := by
    norm_num
    ring
  rw [h]
  exact getCachedTrig_div8 cosF sinF n

/-! ## Spiral layout lemmas -/

lemma filterMap_get?_of_isSome {α β : Type} (f : α → Option β) :
    ∀ (l : List α), (∀ a ∈ l, (f a).isSome) →
      ∀ (i : ℕ) (a : α), l.get? i = some a → ∀ b, f a = some b →
        (l.filterMap f).get? i = some b := by
  intro l
  induction l with
  | nil =>
      intro _ i a ha
      simp at ha
  | cons x l ih =>
      intro hall i a ha b hb
      obtain ⟨bx, hbx⟩ :=
        Option.isSome_iff_exists.mp (hall x (List.mem_cons_self x l))
      rw [List.filterMap_cons, hbx]
      cases i with
      | zero =>
          have hax : a = x := (Option.some.inj ha).symm
          subst hax
          have hbb : bx = b := by
            rw [hbx] at hb
            exact Option.some.inj hb
          subst hbb
          rfl
      | succ n =>
          exact ih (fun y hy => hall y (List.mem_cons_of_mem x hy)) n a ha b hb

lemma filterMap_map_eq_reduceOption {α β γ : Type} (l : List α)
    (f : α → Option β) (g : β → γ) (lk : α → Option γ)
    (h : ∀ a ∈ l, (f a).map g = lk a) :
    (l.filterMap f).map g = (l.map lk).reduceOption := by
  rw [List.map_filterMap, List.filterMap_congr h]
  simp [List.reduceOption, List.filterMap_map, Function.id_comp]

lemma spiralLookup_large (marker : GeoFeature) (cc : List ChildFeature)
    (ms : List GeoFeature) (idx : ℕ)
    (h500 : 500 < marker.properties.point_count) (j : ℕ) :
    spiralLookup marker cc ms idx j =
      (cc.get? (j * (marker.properties.point_count / 75))).bind
        childIndexValue := by
  unfold spiralLookup
  rw [if_pos h500]

lemma generateSpiral_large_get? (cosF sinF : ℚ → ℚ) (marker : GeoFeature)
    (cc : List ChildFeature) (ms : List GeoFeature) (idx : ℕ)
    (h500 : 500 < marker.properties.point_count)
    (hns : ∀ j, j < 75 → (spiralLookup marker cc ms idx j).isSome)
    (i : ℕ) (hi : i < 75) (ci : ℚ)
    (hci : spiralLookup marker cc ms idx i = some ci) :
    (generateSpiral cosF sinF marker cc ms idx).get? i =
      some ⟨ci,
        marker.geometry.coordinates.1 +
          0.0006 * (0.25 * ((i : ℚ) * 0.5)) * sinF (0.25 * ((i : ℚ) * 0.5)),
        marker.geometry.coordinates.2 +
          0.0006 * (0.25 * ((i : ℚ) * 0.5)) * cosF (0.25 * ((i : ℚ) * 0.5)),
        ⟨marker.geometry.coordinates.2, marker.geometry.coordinates.1⟩⟩ := by
  simp only [generateSpiral]
  rw [if_pos h500]
  refine filterMap_get?_of_isSome _ (List.range 75) ?_ i i
    (List.get?_range hi) _ ?_
  · intro a ha
    have hs := hns a (List.mem_range.mp ha)
    rw [spiralLookup_large marker cc ms idx h500 a] at hs
    obtain ⟨c, hc⟩ := Option.isSome_iff_exists.mp hs
    rw [hc]
    rfl
  · rw [spiralLookup_large marker cc ms idx h500 i] at hci
    rw [hci]
    simp only [getCachedTrig_sample]

lemma spiralPositions_normal (marker : GeoFeature)
    (h500 : marker.properties.point_count ≤ 500) :
    spiralPositions marker =
      min marker.properties.point_count
        (if 200 < marker.properties.point_count then 75
         else if 100 < marker.properties.point_count then 50
         else marker.properties.point_count) := by
  unfold spiralPositions
  rw [if_neg (by omega)]

lemma spiralStep_normal (marker : GeoFeature)
    (h500 : marker.properties.point_count ≤ 500) :
    spiralStep marker =
      (if (if 200 < marker.properties.point_count then 75
           else if 100 < marker.properties.point_count then 50
           else marker.properties.point_count) <
            marker.properties.point_count then
        marker.properties.point_count /
          (if 200 < marker.properties.point_count then 75
           else if 100 < marker.properties.point_count then 50
           else marker.properties.point_count)
       else 1) := by
  simp only [spiralStep]
  rw [if_neg (by omega)]

lemma spiralDensity_normal (marker : GeoFeature)
    (h500 : marker.properties.point_count ≤ 500) :
    spiralDensity marker =
      (if 100 < marker.properties.point_count then 0.0004
       else if 50 < marker.properties.point_count then 0.0003
       else 0.00025) := by
  simp only [spiralDensity]
  rw [if_neg (by omega)]

lemma spiralLookup_normal (marker : GeoFeature) (cc : List ChildFeature)
    (ms : List GeoFeature) (idx : ℕ)
    (h500 : marker.properties.point_count ≤ 500) (j : ℕ) :
    spiralLookup marker cc ms idx j =
      (cc.get? (j * spiralStep marker +
        (if 0 < idx then
          ((ms.take idx).map (fun m => m.properties.point_count)).sum
         else 0))).bind childIndexValue := by
  simp only [spiralLookup]
  rw [if_neg (by omega), spiralStep_normal marker h500]

lemma generateSpiral_normal_get? (cosF sinF : ℚ → ℚ) (marker : GeoFeature)
    (cc : List ChildFeature) (ms : List GeoFeature) (idx : ℕ)
    (h500 : marker.properties.point_count ≤ 500)
    (hns : ∀ j, j < spiralPositions marker →
      (spiralLookup marker cc ms idx j).isSome)
    (i : ℕ) (hi : i < spiralPositions marker) (ci : ℚ)
    (hci : spiralLookup marker cc ms idx i = some ci) :
    (generateSpiral cosF sinF marker cc ms idx).get? i =
      some ⟨ci,
        marker.geometry.coordinates.1 +
          spiralDensity marker *
            (0.25 * (((i * spiralStep marker : ℕ) : ℚ) * 0.5)) *
            sinF (0.25 * (((i * spiralStep marker : ℕ) : ℚ) * 0.5)),
        marker.geometry.coordinates.2 +
          spiralDensity marker *
            (0.25 * (((i * spiralStep marker : ℕ) : ℚ) * 0.5)) *
            cosF (0.25 * (((i * spiralStep marker : ℕ) : ℚ) * 0.5)),
        ⟨marker.geometry.coordinates.2, marker.geometry.coordinates.1⟩⟩ := by
  rw [spiralPositions_normal marker h500] at hi hns
  simp only [generateSpiral]
  rw [if_neg (show ¬500 < marker.properties.point_count by omega)]
  rw [← spiralStep_normal marker h500, ← spiralDensity_normal marker h500]
  refine filterMap_get?_of_isSome _ (List.range _) ?_ i i
    (List.get?_range hi) _ ?_
  · intro a ha
    have hs := hns a (List.mem_range.mp ha)
    rw [spiralLookup_normal marker cc ms idx h500 a] at hs
    obtain ⟨c, hc⟩ := Option.isSome_iff_exists.mp hs
    rw [hc]
    rfl
  · rw [spiralLookup_normal marker cc ms idx h500 i] at hci
    rw [hci]
    simp only [getCachedTrig_sample]

lemma spiralLookup_shape (marker : GeoFeature) (cc : List ChildFeature)
    (ms : List GeoFeature) (idx : ℕ) (j : ℕ) :
    ∃ pos, spiralLookup marker cc ms idx j =
      (cc.get? pos).bind childIndexValue := by
  simp only [spiralLookup]
  split_ifs
  all_goals exact ⟨_, rfl⟩

lemma generateSpiral_mem (cosF sinF : ℚ → ℚ) (marker : GeoFeature)
    (cc : List ChildFeature) (ms : List GeoFeature) (idx : ℕ)
    (sm : SpiderMarker) (hsm : sm ∈ generateSpiral cosF sinF marker cc ms idx) :
    ∃ j ci, spiralLookup marker cc ms idx j = some ci ∧ sm.index = ci ∧
      sm.centerPoint =
        ⟨marker.geometry.coordinates.2, marker.geometry.coordinates.1⟩ := by
  by_cases h : 500 < marker.properties.point_count
  · simp only [generateSpiral] at hsm
    rw [if_pos h] at hsm
    obtain ⟨a, _, hfa⟩ := List.mem_filterMap.mp hsm
    rcases hl : (cc.get? (a * (marker.properties.point_count / 75))).bind
        childIndexValue with _ | c
    · rw [hl] at hfa
      simp at hfa
    · rw [hl] at hfa
      have hsm2 := Option.some.inj hfa
      refine ⟨a, c, ?_, ?_, ?_⟩
      · rw [spiralLookup_large marker cc ms idx h a, hl]
      · rw [← hsm2]
      · rw [← hsm2]
  · have h500 : marker.properties.point_count ≤ 500 := by omega
    simp only [generateSpiral] at hsm
    rw [if_neg h, ← spiralStep_normal marker h500] at hsm
    obtain ⟨a, _, hfa⟩ := List.mem_filterMap.mp hsm
    rcases hl : (cc.get? (a * spiralStep marker +
        (if 0 < idx then
          ((ms.take idx).map (fun m => m.properties.point_count)).sum
         else 0))).bind childIndexValue with _ | c
    · rw [hl] at hfa
      simp at hfa
    · rw [hl] at hfa
      have hsm2 := Option.some.inj hfa
      refine ⟨a, c, ?_, ?_, ?_⟩
      · rw [spiralLookup_normal marker cc ms idx h500 a, hl]
      · rw [← hsm2]
      · rw [← hsm2]

/-! ## Lookup lemmas for the props model -/

lemma find?_filter_of_imp {α : Type} (l : List α) (p q : α → Bool)
    (h : ∀ a, p a = true → q a = true) :
    (l.filter q).find? p = l.find? p := by
  induction l with
  | nil => rfl
  | cons a l ih =>
      by_cases hq : q a = true
      · rw [List.filter_cons_of_pos hq]
        cases hp : p a <;> simp [List.find?_cons, hp, ih]
      · have hp : p a = false := by
          cases hpa : p a
          · rfl
          · exact absurd (h a hpa) hq
        rw [List.filter_cons_of_neg (by simp_all)]
        rw [ih]
        conv_rhs => rw [List.find?_cons, hp]

lemma getProp_cons (e : String × JsVal) (l : List (String × JsVal))
    (k : String) :
    getProp (e :: l) k =
      (getProp l k).or (if e.1 == k then some e.2 else none) := by
  unfold getProp
  rw [List.reverse_cons, List.find?_append]
  cases h : getProp l k with
  | none =>
      unfold getProp at h
      rcases hf : l.reverse.find? (fun x => x.1 == k) with _ | x
      · simp only [hf, Option.or_none, Option.map_none']
        cases he : (e.1 == k) <;> simp [List.find?_cons, he]
      · rw [hf] at h
        simp at h
  | some v =>
      unfold getProp at h
      rcases hf : l.reverse.find? (fun x => x.1 == k) with _ | x
      · rw [hf] at h
        simp at h
      · rw [hf] at h
        simp only [Option.map_some'] at h
        simp [hf, ← h]

lemma getProp_filter_ne (props : List (String × JsVal)) (k : String)
    (hk : k ≠ childrenKey) :
    getProp (props.filter (fun e => !(e.1 == childrenKey))) k =
      getProp props k := by
  unfold getProp
  rw [← List.filter_reverse]
  rw [find?_filter_of_imp]
  intro e he
  have : e.1 = k := by simpa using he
  subst this
  simpa using hk

lemma getProp_filter_children (props : List (String × JsVal)) :
    getProp (props.filter (fun e => !(e.1 == childrenKey))) childrenKey =
      none := by
  unfold getProp
  rw [← List.filter_reverse]
  have : (props.reverse.filter (fun e => !(e.1 == childrenKey))).find?
      (fun e => e.1 == childrenKey) = none := by
    rw [List.find?_eq_none]
    intro x hx
    have := (List.mem_filter.mp hx).2
    simpa using this
  rw [this, Option.map_none']

lemma markerStylesLookup_gt_100 (p : ℕ) (hp : 100 < p) :
    markerStylesLookup p = none := by
  unfold markerStylesLookup
  rw [if_neg (by omega), if_neg (by omega), if_neg (by omega), if_neg (by omega),
      if_neg (by omega), if_neg (by omega), if_neg (by omega)]

lemma returnMarkerStyle_gt_100 (p : ℕ) (hp : 100 < p) :
    returnMarkerStyle p = ⟨90, 90, 70, 22⟩ := by
  unfold returnMarkerStyle
  rw [markerStylesLookup_gt_100 p hp, Option.getD_none, if_pos hp]

lemma returnMarkerStyle_mono_bounded :
    ∀ p1 : ℕ, p1 < 102 → ∀ p2 : ℕ, p2 < 102 → p1 < p2 →
      (returnMarkerStyle p1).size ≤ (returnMarkerStyle p2).size := by decide

lemma returnMarkerStyle_size_le_bounded :
    ∀ p : ℕ, p < 102 → (returnMarkerStyle p).size ≤ 70 := by decide

/-- C6: for every region, `calculateBBox` returns
`(lng - lngD, lat - latD, lng + lngD, lat + latD)` with the negative
longitude delta corrected by `+360`; for the region
`{lat 52.5, lng 19.2, latD 8.5, lngD 8.5}` it returns
`(10.7, 44.0, 27.7, 61.0)`. -/
theorem c6_calculateBBox :
    (∀ region : Region,
      calculateBBox region =
        (let lngD :=
          if region.longitudeDelta < 0 then region.longitudeDelta + 360
          else region.longitudeDelta
         (region.longitude - lngD,
          region.latitude - region.latitudeDelta,
          region.longitude + lngD,
          region.latitude + region.latitudeDelta))) ∧
    calculateBBox ⟨52.5, 19.2, 8.5, 8.5⟩ = (10.7, 44.0, 27.7, 61.0) := by
  refine ⟨fun region => rfl, ?_⟩
  norm_num [calculateBBox, Prod.ext_iff]

/-- C7: `returnMarkerStyle` is monotone in size; `returnMarkerStyle 4` is
exactly the `{54, 54, 40, 16}` tier; every count above 100 that is not an
exact table key maps to the 100-threshold tier `{90, 90, 70, 22}`. -/
theorem c7_returnMarkerStyle :
    (∀ p1 p2 : ℕ, p1 < p2 →
      (returnMarkerStyle p1).size ≤ (returnMarkerStyle p2).size) ∧
    returnMarkerStyle 4 = ⟨54, 54, 40, 16⟩ ∧
    (∀ p : ℕ, 100 < p → markerStylesLookup p = none →
      returnMarkerStyle p = ⟨90, 90, 70, 22⟩) := by
  refine ⟨?_, by decide, fun p hp _ => returnMarkerStyle_gt_100 p hp⟩
  intro p1 p2 h
  by_cases h2 : p2 < 102
  · exact returnMarkerStyle_mono_bounded p1 (by omega) p2 h2 h
  · rw [returnMarkerStyle_gt_100 p2 (by omega)]
    by_cases h1 : p1 < 102
    · exact returnMarkerStyle_size_le_bounded p1 h1
    · rw [returnMarkerStyle_gt_100 p1 (by omega)]

/-- C7 witness: the monotonicity and the above-100 clamp at concrete
counts. -/
theorem c7_returnMarkerStyle_witness :
    (returnMarkerStyle 3).size ≤ (returnMarkerStyle 5).size ∧
    returnMarkerStyle 4 = ⟨54, 54, 40, 16⟩ ∧
    returnMarkerStyle 101 = ⟨90, 90, 70, 22⟩ :=
  ⟨c7_returnMarkerStyle.1 3 5 (by decide), c7_returnMarkerStyle.2.1,
   c7_returnMarkerStyle.2.2 101 (by decide) (by decide)⟩

/-- C8: with `longitudeDelta ≥ 40` the zoom is `minZoom` and is independent
of the bounding-box argument. -/
theorem c8_returnMapZoom_shortcut
    (gv : ℚ × ℚ × ℚ × ℚ → ℚ × ℚ → ℤ) (w h : ℚ) (region : Region)
    (bBox : ℚ × ℚ × ℚ × ℚ) (minZoom : ℤ)
    (h40 : 40 ≤ region.longitudeDelta) :
    returnMapZoom gv w h region bBox minZoom = minZoom ∧
    (∀ bBox2 : ℚ × ℚ × ℚ × ℚ,
      returnMapZoom gv w h region bBox minZoom =
      returnMapZoom gv w h region bBox2 minZoom) := by
  constructor
  · simp [returnMapZoom, h40]
  · intro bBox2
    simp [returnMapZoom, h40]

/-- C8 witness: a concrete wide region with two different bounding boxes. -/
theorem c8_returnMapZoom_witness :
    returnMapZoom (fun _ _ => 7) 320 640 ⟨0, 0, 1, 40⟩ (0, 0, 0, 0) 3 = 3 ∧
    returnMapZoom (fun _ _ => 7) 320 640 ⟨0, 0, 1, 40⟩ (0, 0, 0, 0) 3 =
      returnMapZoom (fun _ _ => 7) 320 640 ⟨0, 0, 1, 40⟩ (1, 2, 3, 4) 3 :=
  ⟨(c8_returnMapZoom_shortcut (fun _ _ => 7) 320 640 ⟨0, 0, 1, 40⟩
      (0, 0, 0, 0) 3 (by decide)).1,
   (c8_returnMapZoom_shortcut (fun _ _ => 7) 320 640 ⟨0, 0, 1, 40⟩
      (0, 0, 0, 0) 3 (by decide)).2 (1, 2, 3, 4)⟩

/-- C1, amended: with every sampled leaf carrying a numeric index, the
`i`-th output of `generateSpiral` is placed at
`angle = 0.25 * (i * 0.5)` on the large-cluster path (the sample step only
selects which leaf is read, not the angle) and at
`angle = 0.25 * ((i * step) * 0.5)` on the normal path, with
`longitude = centerLng + spiralDensity * angle * sin angle` and
`latitude = centerLat + spiralDensity * angle * cos angle`, where the
density is `0.0006` for `point_count > 500`, else `0.0004` above 100,
`0.0003` above 50, and `0.00025` otherwise. -/
theorem c1_generateSpiral_placement (cosF sinF : ℚ → ℚ) (marker : GeoFeature)
    (cc : List ChildFeature) (ms : List GeoFeature) (idx : ℕ) :
    spiralDensity marker =
      (if 500 < marker.properties.point_count then 0.0006
       else if 100 < marker.properties.point_count then 0.0004
       else if 50 < marker.properties.point_count then 0.0003
       else 0.00025) ∧
    (500 < marker.properties.point_count →
      (∀ j, j < 75 → (spiralLookup marker cc ms idx j).isSome) →
      ∀ i ci, i < 75 → spiralLookup marker cc ms idx i = some ci →
        (generateSpiral cosF sinF marker cc ms idx).get? i =
          some ⟨ci,
            marker.geometry.coordinates.1 +
              0.0006 * (0.25 * ((i : ℚ) * 0.5)) *
                sinF (0.25 * ((i : ℚ) * 0.5)),
            marker.geometry.coordinates.2 +
              0.0006 * (0.25 * ((i : ℚ) * 0.5)) *
                cosF (0.25 * ((i : ℚ) * 0.5)),
            ⟨marker.geometry.coordinates.2, marker.geometry.coordinates.1⟩⟩) ∧
    (marker.properties.point_count ≤ 500 →
      (∀ j, j < spiralPositions marker →
        (spiralLookup marker cc ms idx j).isSome) →
      ∀ i ci, i < spiralPositions marker →
        spiralLookup marker cc ms idx i = some ci →
        (generateSpiral cosF sinF marker cc ms idx).get? i =
          some ⟨ci,
            marker.geometry.coordinates.1 +
              spiralDensity marker *
                (0.25 * (((i * spiralStep marker : ℕ) : ℚ) * 0.5)) *
                sinF (0.25 * (((i * spiralStep marker : ℕ) : ℚ) * 0.5)),
            marker.geometry.coordinates.2 +
              spiralDensity marker *
                (0.25 * (((i * spiralStep marker : ℕ) : ℚ) * 0.5)) *
                cosF (0.25 * (((i * spiralStep marker : ℕ) : ℚ) * 0.5)),
            ⟨marker.geometry.coordinates.2, marker.geometry.coordinates.1⟩⟩) :=
  ⟨rfl,
   fun h hns i ci hi hci =>
     generateSpiral_large_get? cosF sinF marker cc ms idx h hns i hi ci hci,
   fun h hns i ci hi hci =>
     generateSpiral_normal_get? cosF sinF marker cc ms idx h hns i hi ci hci⟩

/-- C1, counterexample to the claim as stated: on the large-cluster path
(`point_count = 501`, `step = 501 / 75 = 6`, with `sin` and `cos`
instantiated as the identity) the second output is placed with
`angle = 0.25 * (1 * 0.5)` and not at the claimed
`angle = 0.25 * ((1 * step) * 0.5)`. -/
theorem c1_spiral_angle_counterexample :
    ((generateSpiral (fun q => q) (fun q => q)
        ⟨⟨501, false, none, none⟩, ⟨(10, 20)⟩⟩
        ((List.range 445).map
          (fun (k : ℕ) => ChildFeature.mk (some ⟨some (k : ℚ)⟩)))
        [] 0).get? 1).map SpiderMarker.longitude =
      some (10 + 0.0006 * (0.25 * (((1 : ℕ) : ℚ) * 0.5)) *
        (0.25 * (((1 : ℕ) : ℚ) * 0.5))) ∧
    ((generateSpiral (fun q => q) (fun q => q)
        ⟨⟨501, false, none, none⟩, ⟨(10, 20)⟩⟩
        ((List.range 445).map
          (fun (k : ℕ) => ChildFeature.mk (some ⟨some (k : ℚ)⟩)))
        [] 0).get? 1).map SpiderMarker.longitude ≠
      some (10 + 0.0006 * (0.25 * (((1 * (501 / 75) : ℕ) : ℚ) * 0.5)) *
        (0.25 * (((1 * (501 / 75) : ℕ) : ℚ) * 0.5))) := by
  have hns : ∀ j, j < 75 →
      (spiralLookup ⟨⟨501, false, none, none⟩, ⟨(10, 20)⟩⟩
        ((List.range 445).map
          (fun (k : ℕ) => ChildFeature.mk (some ⟨some (k : ℚ)⟩)))
        [] 0 j).isSome := by decide
  obtain ⟨ci, hci⟩ := Option.isSome_iff_exists.mp (hns 1 (by omega))
  have h1 := generateSpiral_large_get? (fun q => q) (fun q => q)
    ⟨⟨501, false, none, none⟩, ⟨(10, 20)⟩⟩
    ((List.range 445).map
      (fun (k : ℕ) => ChildFeature.mk (some ⟨some (k : ℚ)⟩)))
    [] 0 (by decide) hns 1 (by omega) ci hci
  constructor
  · rw [h1]
    rfl
  · rw [h1]
    simp only [Option.map_some', ne_eq, Option.some.injEq]
    intro hcontra
    norm_num at hcontra

/-- C1 witness: the amended placement at concrete clusters on both paths. -/
theorem c1_generateSpiral_placement_witness :
    (∃ sm, (generateSpiral (fun q => q) (fun q => q)
        ⟨⟨501, false, none, none⟩, ⟨(10, 20)⟩⟩
        ((List.range 445).map
          (fun (k : ℕ) => ChildFeature.mk (some ⟨some (k : ℚ)⟩)))
        [] 0).get? 2 = some sm) ∧
    (∃ sm, (generateSpiral (fun q => q) (fun q => q)
        ⟨⟨2, false, none, none⟩, ⟨(10, 20)⟩⟩
        [⟨some ⟨some 0⟩⟩, ⟨some ⟨some 1⟩⟩] [] 0).get? 1 = some sm) := by
  constructor
  · have hns : ∀ j, j < 75 →
        (spiralLookup ⟨⟨501, false, none, none⟩, ⟨(10, 20)⟩⟩
          ((List.range 445).map
            (fun (k : ℕ) => ChildFeature.mk (some ⟨some (k : ℚ)⟩)))
          [] 0 j).isSome := by decide
    obtain ⟨ci, hci⟩ := Option.isSome_iff_exists.mp (hns 2 (by omega))
    exact ⟨_, (c1_generateSpiral_placement (fun q => q) (fun q => q)
      ⟨⟨501, false, none, none⟩, ⟨(10, 20)⟩⟩
      ((List.range 445).map
        (fun (k : ℕ) => ChildFeature.mk (some ⟨some (k : ℚ)⟩)))
      [] 0).2.1 (by decide) hns 2 ci (by omega) hci⟩
  · have hns : ∀ j, j < spiralPositions ⟨⟨2, false, none, none⟩, ⟨(10, 20)⟩⟩ →
        (spiralLookup ⟨⟨2, false, none, none⟩, ⟨(10, 20)⟩⟩
          [⟨some ⟨some 0⟩⟩, ⟨some ⟨some 1⟩⟩] [] 0 j).isSome := by decide
    obtain ⟨ci, hci⟩ := Option.isSome_iff_exists.mp (hns 1 (by decide))
    exact ⟨_, (c1_generateSpiral_placement (fun q => q) (fun q => q)
      ⟨⟨2, false, none, none⟩, ⟨(10, 20)⟩⟩
      [⟨some ⟨some 0⟩⟩, ⟨some ⟨some 1⟩⟩] [] 0).2.2 (by decide) hns 1 ci
      (by decide) hci⟩

/-- C4: the number of spider positions is at most 75 for
`point_count > 200` (including the large-cluster path), at most 50 for
`100 < point_count ≤ 200`, and at most `point_count` otherwise. -/
theorem c4_generateSpiral_count_bound (cosF sinF : ℚ → ℚ)
    (marker : GeoFeature) (cc : List ChildFeature) (ms : List GeoFeature)
    (idx : ℕ) :
    (generateSpiral cosF sinF marker cc ms idx).length ≤
      (if 200 < marker.properties.point_count then 75
       else if 100 < marker.properties.point_count then 50
       else marker.properties.point_count) := by
  have hlen : ∀ (n : ℕ) (f : ℕ → Option SpiderMarker),
      ((List.range n).filterMap f).length ≤ n := by
    intro n f
    calc ((List.range n).filterMap f).length ≤ (List.range n).length :=
          List.length_filterMap_le f (List.range n)
      _ = n := List.length_range n
  simp only [generateSpiral]
  by_cases h : 500 < marker.properties.point_count
  · rw [if_pos h, if_pos (show 200 < marker.properties.point_count by omega)]
    exact hlen 75 _
  · rw [if_neg h]
    refine le_trans (hlen _ _) ?_
    split_ifs <;> omega

/-- C5: the output indices of `generateSpiral` are exactly the successful
sampled-leaf lookups in order (a leaf with a missing or non-numeric index
contributes nothing), and every output index is the numeric index of some
element of the input leaf list. -/
theorem c5_generateSpiral_indices (cosF sinF : ℚ → ℚ) (marker : GeoFeature)
    (cc : List ChildFeature) (ms : List GeoFeature) (idx : ℕ) :
    (generateSpiral cosF sinF marker cc ms idx).map SpiderMarker.index =
      ((List.range (spiralPositions marker)).map
        (spiralLookup marker cc ms idx)).reduceOption ∧
    ∀ sm ∈ generateSpiral cosF sinF marker cc ms idx,
      ∃ c ∈ cc, childIndexValue c = some sm.index := by
  constructor
  · by_cases h : 500 < marker.properties.point_count
    · have hp : spiralPositions marker = 75 := by
        simp only [spiralPositions]
        rw [if_pos h]
      rw [hp]
      simp only [generateSpiral]
      rw [if_pos h]
      apply filterMap_map_eq_reduceOption
      intro a _
      rw [spiralLookup_large marker cc ms idx h a]
      rcases hl : (cc.get? (a * (marker.properties.point_count / 75))).bind
          childIndexValue with _ | c <;> rfl
    · have h500 : marker.properties.point_count ≤ 500 := by omega
      rw [spiralPositions_normal marker h500]
      simp only [generateSpiral]
      rw [if_neg h, ← spiralStep_normal marker h500]
      apply filterMap_map_eq_reduceOption
      intro a _
      rw [spiralLookup_normal marker cc ms idx h500 a]
      rcases hl : (cc.get? (a * spiralStep marker +
          (if 0 < idx then
            ((ms.take idx).map (fun m => m.properties.point_count)).sum
           else 0))).bind childIndexValue with _ | c <;> rfl
  · intro sm hsm
    obtain ⟨j, ci, hlook, hidx, _⟩ :=
      generateSpiral_mem cosF sinF marker cc ms idx sm hsm
    obtain ⟨pos, hpos⟩ := spiralLookup_shape marker cc ms idx j
    rw [hpos] at hlook
    obtain ⟨c, hc, hcv⟩ := Option.bind_eq_some.mp hlook
    exact ⟨c, List.get?_mem hc, by rw [hcv, hidx]⟩

/-- C5 witness: the index projection and index provenance at a concrete
two-leaf cluster. -/
theorem c5_generateSpiral_indices_witness :
    (generateSpiral (fun _ => 1) (fun _ => 0)
        ⟨⟨2, false, none, none⟩, ⟨(10, 20)⟩⟩
        [⟨some ⟨some 0⟩⟩, ⟨some ⟨some 1⟩⟩] [] 0).map SpiderMarker.index =
      ((List.range (spiralPositions ⟨⟨2, false, none, none⟩, ⟨(10, 20)⟩⟩)).map
        (spiralLookup ⟨⟨2, false, none, none⟩, ⟨(10, 20)⟩⟩
          [⟨some ⟨some 0⟩⟩, ⟨some ⟨some 1⟩⟩] [] 0)).reduceOption ∧
    (∃ sm, (generateSpiral (fun _ => 1) (fun _ => 0)
        ⟨⟨2, false, none, none⟩, ⟨(10, 20)⟩⟩
        [⟨some ⟨some 0⟩⟩, ⟨some ⟨some 1⟩⟩] [] 0).get? 0 = some sm ∧
      ∃ c ∈ [ChildFeature.mk (some ⟨some 0⟩), ChildFeature.mk (some ⟨some 1⟩)],
        childIndexValue c = some sm.index) := by
  constructor
  · exact (c5_generateSpiral_indices (fun _ => 1) (fun _ => 0)
      ⟨⟨2, false, none, none⟩, ⟨(10, 20)⟩⟩
      [⟨some ⟨some 0⟩⟩, ⟨some ⟨some 1⟩⟩] [] 0).1
  · have hns : ∀ j, j < spiralPositions ⟨⟨2, false, none, none⟩, ⟨(10, 20)⟩⟩ →
        (spiralLookup ⟨⟨2, false, none, none⟩, ⟨(10, 20)⟩⟩
          [⟨some ⟨some 0⟩⟩, ⟨some ⟨some 1⟩⟩] [] 0 j).isSome := by decide
    obtain ⟨ci, hci⟩ := Option.isSome_iff_exists.mp (hns 0 (by decide))
    have h0 := generateSpiral_normal_get? (fun _ => 1) (fun _ => 0)
      ⟨⟨2, false, none, none⟩, ⟨(10, 20)⟩⟩
      [⟨some ⟨some 0⟩⟩, ⟨some ⟨some 1⟩⟩] [] 0 (by decide) hns 0 (by decide)
      ci hci
    exact ⟨_, h0, (c5_generateSpiral_indices (fun _ => 1) (fun _ => 0)
      ⟨⟨2, false, none, none⟩, ⟨(10, 20)⟩⟩
      [⟨some ⟨some 0⟩⟩, ⟨some ⟨some 1⟩⟩] [] 0).2 _
      (List.get?_mem h0)⟩

/-- C10: every spider position returned by `generateSpiral`, on either
path, carries the cluster's own center as its `centerPoint`
(`longitude = coordinates[0]`, `latitude = coordinates[1]`). -/
theorem c10_generateSpiral_centerPoint (cosF sinF : ℚ → ℚ)
    (marker : GeoFeature) (cc : List ChildFeature) (ms : List GeoFeature)
    (idx : ℕ) :
    ∀ sm ∈ generateSpiral cosF sinF marker cc ms idx,
      sm.centerPoint =
        ⟨marker.geometry.coordinates.2, marker.geometry.coordinates.1⟩ := by
  intro sm hsm
  obtain ⟨_, _, _, _, hc⟩ :=
    generateSpiral_mem cosF sinF marker cc ms idx sm hsm
  exact hc

/-- C10 witness: a concrete spider position sharing its cluster's center. -/
theorem c10_generateSpiral_centerPoint_witness :
    ∃ sm, (generateSpiral (fun _ => 1) (fun _ => 0)
        ⟨⟨2, false, none, none⟩, ⟨(10, 20)⟩⟩
        [⟨some ⟨some 0⟩⟩, ⟨some ⟨some 1⟩⟩] [] 0).get? 0 = some sm ∧
      sm.centerPoint = ⟨20, 10⟩ := by
  have hns : ∀ j, j < spiralPositions ⟨⟨2, false, none, none⟩, ⟨(10, 20)⟩⟩ →
      (spiralLookup ⟨⟨2, false, none, none⟩, ⟨(10, 20)⟩⟩
        [⟨some ⟨some 0⟩⟩, ⟨some ⟨some 1⟩⟩] [] 0 j).isSome := by decide
  obtain ⟨ci, hci⟩ := Option.isSome_iff_exists.mp (hns 0 (by decide))
  have h0 := generateSpiral_normal_get? (fun _ => 1) (fun _ => 0)
    ⟨⟨2, false, none, none⟩, ⟨(10, 20)⟩⟩
    [⟨some ⟨some 0⟩⟩, ⟨some ⟨some 1⟩⟩] [] 0 (by decide) hns 0 (by decide)
    ci hci
  exact ⟨_, h0, c10_generateSpiral_centerPoint (fun _ => 1) (fun _ => 0)
    ⟨⟨2, false, none, none⟩, ⟨(10, 20)⟩⟩
    [⟨some ⟨some 0⟩⟩, ⟨some ⟨some 1⟩⟩] [] 0 _ (List.get?_mem h0)⟩

/-! ## State-machine lemmas -/

lemma handleRegionChangeComplete_some (gv : ℚ × ℚ × ℚ × ℚ → ℚ × ℚ → ℤ)
    (w h : ℚ) (spiralEnabled : Bool) (minZoom : ℤ) (st : MapState)
    (region : Region) (sc : SCHandle) (hsc : st.superCluster = some sc) :
    handleRegionChangeComplete gv w h spiralEnabled minZoom st region =
      { st with
        markers := sc.getClusters (calculateBBox region)
          (returnMapZoom gv w h region (calculateBBox region) minZoom),
        region := region,
        isSpiderfier :=
          if 18 ≤ returnMapZoom gv w h region (calculateBBox region) minZoom ∧
             sc.getClusters (calculateBBox region)
               (returnMapZoom gv w h region (calculateBBox region) minZoom) ≠
               [] ∧
             st.clusterChildren ≠ none then
            (if spiralEnabled then true else st.isSpiderfier)
          else (if spiralEnabled then false else st.isSpiderfier) } := by
  unfold handleRegionChangeComplete
  rw [hsc]

lemma spiderEffect_active (cosF sinF : ℚ → ℚ) (st : MapState)
    (hsp : st.isSpiderfier = true) (hm : st.markers ≠ []) :
    spiderEffect cosF sinF true st =
      { st with spiderMarkers := generateAllSpiderMarkers cosF sinF st } := by
  unfold spiderEffect
  rw [hsp]
  have hempty : st.markers.isEmpty = false := by
    cases he : st.markers.isEmpty
    · rfl
    · exact absurd (List.isEmpty_iff.mp he) hm
  rw [hempty]
  rfl

lemma spiderEffect_clear (cosF sinF : ℚ → ℚ) (st : MapState)
    (hsp : st.isSpiderfier = false) :
    spiderEffect cosF sinF true st = { st with spiderMarkers := [] } := by
  unfold spiderEffect
  rw [hsp]
  rfl

/-- C2, amended: with a loaded spatial index and spiral mode enabled, a
settle event moves to Spiderfied exactly when the derived zoom is at least
18, the queried feature list is nonempty, and the stored cluster-children
state (set by a prior cluster press) is non-null; in every other case it
moves to Clustered and the spiral-position list is cleared to empty. -/
theorem c2_settleRegion_spiderfier (gv : ℚ × ℚ × ℚ × ℚ → ℚ × ℚ → ℤ)
    (w h : ℚ) (cosF sinF : ℚ → ℚ) (spiralEnabled : Bool) (minZoom : ℤ)
    (st : MapState) (region : Region) (sc : SCHandle)
    (hsc : st.superCluster = some sc) :
    (spiralEnabled = true →
      18 ≤ returnMapZoom gv w h region (calculateBBox region) minZoom →
      sc.getClusters (calculateBBox region)
        (returnMapZoom gv w h region (calculateBBox region) minZoom) ≠ [] →
      st.clusterChildren ≠ none →
      (settleRegion gv w h cosF sinF spiralEnabled minZoom st
        region).isSpiderfier = true) ∧
    (spiralEnabled = true →
      ¬(18 ≤ returnMapZoom gv w h region (calculateBBox region) minZoom ∧
        sc.getClusters (calculateBBox region)
          (returnMapZoom gv w h region (calculateBBox region) minZoom) ≠
          [] ∧
        st.clusterChildren ≠ none) →
      (settleRegion gv w h cosF sinF spiralEnabled minZoom st
          region).isSpiderfier = false ∧
      (settleRegion gv w h cosF sinF spiralEnabled minZoom st
          region).spiderMarkers = []) := by
  constructor
  · intro hsp h18 hne hcc
    subst hsp
    simp only [settleRegion]
    rw [handleRegionChangeComplete_some gv w h true minZoom st region sc hsc]
    rw [spiderEffect_active cosF sinF _
      (by rw [if_pos ⟨h18, hne, hcc⟩, if_pos rfl])
      (by simpa using hne)]
    rw [if_pos ⟨h18, hne, hcc⟩, if_pos rfl]
  · intro hsp hncond
    subst hsp
    simp only [settleRegion]
    rw [handleRegionChangeComplete_some gv w h true minZoom st region sc hsc]
    rw [spiderEffect_clear cosF sinF _ (by rw [if_neg hncond, if_pos rfl])]
    exact ⟨by rw [if_neg hncond, if_pos rfl], rfl⟩

/-- C2, counterexample to the claim as stated: with the index loaded, zoom
19, spiral enabled and a cluster in the queried feature list, but no prior
cluster press (the cluster-children state is null), the settle event still
moves to Clustered, not Spiderfied; conversely, with zoom 19, a prior press
recorded, and a feature list that is nonempty but contains no cluster, it
moves to Spiderfied although the claim's otherwise-branch demands
Clustered. -/
theorem c2_settleRegion_counterexample :
    ((settleRegion (fun _ _ => 19) 320 640 (fun _ => 1) (fun _ => 0) true 1
        ⟨[], [], false, none,
         some ⟨fun _ _ => [⟨⟨5, true, some 1, none⟩, ⟨(0, 0)⟩⟩], fun _ => []⟩,
         ⟨0, 0, 1, 8⟩⟩
        ⟨0, 0, 1, 8⟩).isSpiderfier = false ∧
      18 ≤ returnMapZoom (fun _ _ => 19) 320 640 ⟨0, 0, 1, 8⟩
        (calculateBBox ⟨0, 0, 1, 8⟩) 1 ∧
      (∃ f ∈ [(⟨⟨5, true, some 1, none⟩, ⟨(0, 0)⟩⟩ : GeoFeature)],
        f.properties.cluster = true)) ∧
    ((settleRegion (fun _ _ => 19) 320 640 (fun _ => 1) (fun _ => 0) true 1
        ⟨[], [], false, some [],
         some ⟨fun _ _ => [⟨⟨0, false, none, some 0⟩, ⟨(0, 0)⟩⟩], fun _ => []⟩,
         ⟨0, 0, 1, 8⟩⟩
        ⟨0, 0, 1, 8⟩).isSpiderfier = true ∧
      ∀ f ∈ [(⟨⟨0, false, none, some 0⟩, ⟨(0, 0)⟩⟩ : GeoFeature)],
        f.properties.cluster = false) := by
  refine ⟨⟨?_, by decide,
    ⟨⟨⟨5, true, some 1, none⟩, ⟨(0, 0)⟩⟩, by simp, rfl⟩⟩, ⟨?_, by decide⟩⟩
  · decide
  · decide

/-- C2 witness: the amended transition at concrete states, in both the
Spiderfied and the Clustered direction. -/
theorem c2_settleRegion_witness :
    (settleRegion (fun _ _ => 19) 320 640 (fun _ => 1) (fun _ => 0) true 1
        ⟨[], [], false, some [],
         some ⟨fun _ _ => [⟨⟨5, true, some 1, none⟩, ⟨(0, 0)⟩⟩], fun _ => []⟩,
         ⟨0, 0, 1, 8⟩⟩
        ⟨0, 0, 1, 8⟩).isSpiderfier = true ∧
    ((settleRegion (fun _ _ => 10) 320 640 (fun _ => 1) (fun _ => 0) true 1
        ⟨[], [], true, some [],
         some ⟨fun _ _ => [⟨⟨5, true, some 1, none⟩, ⟨(0, 0)⟩⟩], fun _ => []⟩,
         ⟨0, 0, 1, 8⟩⟩
        ⟨0, 0, 1, 8⟩).isSpiderfier = false ∧
      (settleRegion (fun _ _ => 10) 320 640 (fun _ => 1) (fun _ => 0) true 1
        ⟨[], [], true, some [],
         some ⟨fun _ _ => [⟨⟨5, true, some 1, none⟩, ⟨(0, 0)⟩⟩], fun _ => []⟩,
         ⟨0, 0, 1, 8⟩⟩
        ⟨0, 0, 1, 8⟩).spiderMarkers = []) :=
  ⟨(c2_settleRegion_spiderfier (fun _ _ => 19) 320 640 (fun _ => 1)
      (fun _ => 0) true 1
      ⟨[], [], false, some [],
       some ⟨fun _ _ => [⟨⟨5, true, some 1, none⟩, ⟨(0, 0)⟩⟩], fun _ => []⟩,
       ⟨0, 0, 1, 8⟩⟩
      ⟨0, 0, 1, 8⟩ _ rfl).1 rfl (by decide) (by decide) (by decide),
   (c2_settleRegion_spiderfier (fun _ _ => 10) 320 640 (fun _ => 1)
      (fun _ => 0) true 1
      ⟨[], [], true, some [],
       some ⟨fun _ _ => [⟨⟨5, true, some 1, none⟩, ⟨(0, 0)⟩⟩], fun _ => []⟩,
       ⟨0, 0, 1, 8⟩⟩
      ⟨0, 0, 1, 8⟩ _ rfl).2 rfl (by decide)⟩

/-- C3, amended: for a marker carrying a coordinate whose props do not
themselves define `point_count` or `index` keys, the produced feature has
`geometry.coordinates = [longitude, latitude]`, reserved fields
`point_count = 0` and `index = n`, no `children` key, and every other
marker prop copied into `properties`.  (The props spread is applied after
the reserved fields, so caller-supplied `point_count`/`index` bindings
would override them.) -/
theorem c3_markerToGeoJSONFeature (props : List (String × JsVal))
    (c : LatLng) (n : ℚ)
    (hcoord : getProp props coordinateKey = some (JsVal.coord c))
    (hpc : getProp props pointCountKey = none)
    (hidx : getProp props indexKey = none) :
    ∃ f, markerToGeoJSONFeature props n = some f ∧
      f.geometry.coordinates = (JsVal.num c.longitude, JsVal.num c.latitude) ∧
      getProp f.properties pointCountKey = some (JsVal.num 0) ∧
      getProp f.properties indexKey = some (JsVal.num n) ∧
      getProp f.properties childrenKey = none ∧
      ∀ k v, k ≠ childrenKey → getProp props k = some v →
        getProp f.properties k = some v := by
  refine ⟨⟨featureTypeStr,
    ⟨(JsVal.num c.longitude, JsVal.num c.latitude), pointTypeStr⟩,
    (pointCountKey, JsVal.num 0) :: (indexKey, JsVal.num n) ::
      props.filter (fun e => !(e.1 == childrenKey))⟩,
    ?_, rfl, ?_, ?_, ?_, ?_⟩
  · unfold markerToGeoJSONFeature
    rw [hcoord]
    rfl
  · rw [getProp_cons, getProp_cons]
    have h1 : getProp (props.filter (fun e => !(e.1 == childrenKey)))
        pointCountKey = none := by
      rw [getProp_filter_ne props pointCountKey (by decide)]
      exact hpc
    rw [h1]
    rfl
  · rw [getProp_cons, getProp_cons]
    have h1 : getProp (props.filter (fun e => !(e.1 == childrenKey)))
        indexKey = none := by
      rw [getProp_filter_ne props indexKey (by decide)]
      exact hidx
    rw [h1]
    rfl
  · rw [getProp_cons, getProp_cons, getProp_filter_children]
    rfl
  · intro k v hk hkv
    rw [getProp_cons, getProp_cons]
    have h2 : getProp (props.filter (fun e => !(e.1 == childrenKey))) k =
        some v := by
      rw [getProp_filter_ne props k hk]
      exact hkv
    rw [h2]
    rfl

/-- C3, counterexample to the claim as stated: a marker whose props carry
their own `index` binding; the spread overrides the reserved field, so the
produced `properties.index` is the marker's own value `7`, not the passed
position `3`. -/
theorem c3_markerToGeoJSONFeature_counterexample :
    getProp [(coordinateKey, JsVal.coord ⟨2, 1⟩), (indexKey, JsVal.num 7)]
      coordinateKey = some (JsVal.coord ⟨2, 1⟩) ∧
    (markerToGeoJSONFeature
        [(coordinateKey, JsVal.coord ⟨2, 1⟩), (indexKey, JsVal.num 7)] 3).map
      (fun f => getProp f.properties indexKey) = some (some (JsVal.num 7)) ∧
    (markerToGeoJSONFeature
        [(coordinateKey, JsVal.coord ⟨2, 1⟩), (indexKey, JsVal.num 7)] 3).map
      (fun f => getProp f.properties indexKey) ≠
      some (some (JsVal.num 3)) := by
  refine ⟨by decide, by decide, by decide⟩

/-- C3 witness: the amended feature-adapter behaviour at a concrete marker
with one extra prop. -/
theorem c3_markerToGeoJSONFeature_witness :
    (markerToGeoJSONFeature
        [(coordinateKey, JsVal.coord ⟨2, 1⟩), (clusterKey, JsVal.boolean true)]
        3).map (fun f => f.geometry.coordinates) =
      some (JsVal.num 1, JsVal.num 2) ∧
    (markerToGeoJSONFeature
        [(coordinateKey, JsVal.coord ⟨2, 1⟩), (clusterKey, JsVal.boolean true)]
        3).map (fun f => getProp f.properties pointCountKey) =
      some (some (JsVal.num 0)) ∧
    (markerToGeoJSONFeature
        [(coordinateKey, JsVal.coord ⟨2, 1⟩), (clusterKey, JsVal.boolean true)]
        3).map (fun f => getProp f.properties indexKey) =
      some (some (JsVal.num 3)) ∧
    (markerToGeoJSONFeature
        [(coordinateKey, JsVal.coord ⟨2, 1⟩), (clusterKey, JsVal.boolean true)]
        3).map (fun f => getProp f.properties childrenKey) = some none ∧
    (markerToGeoJSONFeature
        [(coordinateKey, JsVal.coord ⟨2, 1⟩), (clusterKey, JsVal.boolean true)]
        3).map (fun f => getProp f.properties clusterKey) =
      some (some (JsVal.boolean true)) := by
  obtain ⟨f, hf, hgeo, hpc, hidx, hch, hall⟩ := c3_markerToGeoJSONFeature
    [(coordinateKey, JsVal.coord ⟨2, 1⟩), (clusterKey, JsVal.boolean true)]
    ⟨2, 1⟩ 3 (by decide) (by decide) (by decide)
  rw [hf]
  have hcl := hall clusterKey (JsVal.boolean true) (by decide) (by decide)
  exact ⟨by rw [Option.map_some', hgeo], by rw [Option.map_some', hpc],
    by rw [Option.map_some', hidx], by rw [Option.map_some', hch],
    by rw [Option.map_some', hcl]⟩

/-! ## Batched-load lemmas -/

lemma processSlice_append (items : List RNode) (a b c : ℕ) (h1 : a ≤ b)
    (h2 : b ≤ c) (acc : List GeoJSONFeature × List RNode) :
    processSlice items b c (processSlice items a b acc) =
      processSlice items a c acc := by
  unfold processSlice
  rw [← List.foldl_append]
  congr 1
  rw [show c - a = (b - a) + (c - b) from by omega, List.take_add,
    List.drop_drop, show a + (b - a) = b from by omega]

lemma processRun_no_cancel (items : List RNode) :
    ∀ (fuel processed k : ℕ), items.length - processed ≤ fuel →
      ∀ acc, processRun items (fun _ => false) k processed acc =
        some (processSlice items processed items.length acc) := by
  intro fuel
  induction fuel with
  | zero =>
      intro processed k hb acc
      have hmin : min (processed + 500) items.length = items.length := by
        omega
      rw [processRun]
      rw [hmin, if_neg (lt_irrefl items.length)]
      rfl
  | succ n ih =>
      intro processed k hb acc
      rw [processRun]
      by_cases hcond : min (processed + 500) items.length < items.length
      · rw [if_pos hcond]
        rw [ih (min (processed + 500) items.length) (k + 1) (by omega)]
        rw [processSlice_append items processed
          (min (processed + 500) items.length) items.length (by omega)
          (by omega)]
        rfl
      · rw [if_neg hcond]
        have hmin : min (processed + 500) items.length = items.length := by
          omega
        rw [hmin]
        rfl

lemma processRun_cancelled (items : List RNode) (flags : ℕ → Bool)
    (hmono : ∀ i j, i ≤ j → flags i = true → flags j = true)
    (k0 : ℕ) (hk0 : flags k0 = true) :
    ∀ (fuel processed k : ℕ), items.length - processed ≤ fuel →
      k0 < k + numTicks items.length processed →
      ∀ acc, processRun items flags k processed acc = none := by
  intro fuel
  induction fuel with
  | zero =>
      intro processed k hb htick acc
      have hmin : min (processed + 500) items.length = items.length := by
        omega
      have hnt : numTicks items.length processed = 1 := by
        rw [numTicks]
        rw [hmin, if_neg (lt_irrefl items.length)]
      rw [hnt] at htick
      have hflag : flags k = true := hmono k0 k (by omega) hk0
      rw [processRun]
      rw [if_pos hflag]
  | succ n ih =>
      intro processed k hb htick acc
      by_cases hflag : flags k = true
      · rw [processRun]
        rw [if_pos hflag]
      · have hflag2 : flags k = false := by
          cases hf : flags k
          · rfl
          · exact absurd hf hflag
        have hk0k : k < k0 := by
          rcases Nat.lt_or_ge k k0 with h | h
          · exact h
          · exact absurd (hmono k0 k h hk0) hflag
        rw [processRun]
        rw [if_neg (by rw [hflag2]; exact Bool.false_ne_true)]
        by_cases hcond : min (processed + 500) items.length < items.length
        · rw [if_pos hcond]
          apply ih (min (processed + 500) items.length) (k + 1) (by omega)
          have hnt : numTicks items.length processed =
              1 + numTicks items.length (min (processed + 500)
                items.length) := by
            rw [numTicks]
            rw [if_pos hcond]
          omega
        · have hnt : numTicks items.length processed = 1 := by
            rw [numTicks]
            rw [if_neg hcond]
          rw [hnt] at htick
          omega

/-- C9: a batched load (marker sets above 1000 children, batch size 500)
that is cancelled while still in progress — the `cancelled` flag becomes
true at some invocation the run still performs — commits nothing, while an
uncancelled load commits exactly the full processing of its own marker
set; only the newest load's results reach the state. -/
theorem c9_batch_cancellation (items1 items2 : List RNode)
    (flags : ℕ → Bool)
    (hmono : ∀ i j, i ≤ j → flags i = true → flags j = true)
    (hbig : 1000 < items1.length) (k0 : ℕ) (hc : flags k0 = true)
    (hin : k0 < numTicks items1.length 0) :
    loadChildren items1 flags = none ∧
    loadChildren items2 (fun _ => false) =
      some (processSlice items2 0 items2.length ([], [])) := by
  constructor
  · unfold loadChildren
    rw [if_neg (by omega)]
    exact processRun_cancelled items1 flags hmono k0 hc items1.length 0 0
      (by omega) (by omega) ([], [])
  · unfold loadChildren
    by_cases h2 : items2.length ≤ 1000
    · rw [if_pos h2]
    · rw [if_neg h2]
      exact processRun_no_cancel items2 items2.length 0 0 (by omega) ([], [])

/-- C9 witness: a 1001-marker load cancelled from its second invocation on
commits nothing; a subsequent small load commits its own full results. -/
theorem c9_batch_cancellation_witness :
    loadChildren (List.replicate 1001 (RNode.other 0))
      (fun k => decide (1 ≤ k)) = none ∧
    loadChildren [RNode.other 7] (fun _ => false) =
      some (processSlice [RNode.other 7] 0
        (List.length [RNode.other 7]) ([], [])) := by
  have hnt : numTicks (List.replicate 1001 (RNode.other 0)).length 0 = 3 := by
    rw [List.length_replicate]
    rw [numTicks]
    norm_num
    rw [numTicks]
    norm_num
    rw [numTicks]
    norm_num
  exact c9_batch_cancellation (List.replicate 1001 (RNode.other 0))
    [RNode.other 7] (fun k => decide (1 ≤ k))
    (fun i j hij hi => by
      simp only [decide_eq_true_eq] at *
      omega)
    (by simp) 1 (by decide) (by rw [hnt]; omega)
